import Mathlib

/-!
Shallow embedding of the write-dicom repository (src/write-image-series.js and
src/write-dicom-dcmjs.js) and proofs about its slice extraction, DICOM tag
dictionary construction and series conversion entry points.

Modelling conventions:
* JS numbers holding spatial quantities (origin, spacing, direction, positions)
  are embedded as `Rat`; all spatial arithmetic in the source is the plain
  `+`/`*` expressions reproduced verbatim here, so no rounding behaviour is lost.
* Pixel buffer elements are embedded as `Int` (the source moves them around
  without arithmetic).
* JS `Map` objects are embedded as association lists with `mapSet`/`mapGet`/
  `mapHas` reproducing Map.set / Map.get / Map.has (set replaces in place,
  otherwise appends; insertion order is irrelevant to every property proved).
* `generateUID` in both source files builds
  "1.2.826.0.1.3680043.8.498.<Date.now()>.<Math.random()>"; wall clock and
  randomness cannot appear in a shallow embedding, so the UID supply is
  embedded as a state-passed counter handing out a fresh distinguishable token
  per call (`DicomValue.uid n`), which is the intended behaviour of the
  time+random suffix.
* Values the source stores after string formatting (`toFixed(6)`,
  backslash-joined position triples) are kept as their numeric content in
  dedicated `DicomValue` constructors; no claim inspects the formatted text.
* The external encoders (itk-wasm gdcmWriteImage, dcmjs DicomDict.write, Blob,
  JSZip, console logging) are outside the core per the spec; the embedding
  returns the data handed to them (the slice with its tag dictionary, and the
  dcmjs dataset) in place of the encoded bytes.
-/

set_option autoImplicit false

namespace WriteDicom

/-- A value stored in a tag dictionary or dcmjs dataset.  `uid n` is the n-th
token handed out by the fresh-UID supply; `alphabetic` is the dcmjs
person-name object shape; `pos3` holds the three position components the
source joins into one backslash-separated string; `rat` holds a numeric value
the source stores after `toFixed(6)` formatting. -/
inductive DicomValue where
  | str : String → DicomValue
  | uid : Nat → DicomValue
  | int : Int → DicomValue
  | rat : Rat → DicomValue
  | alphabetic : String → DicomValue
  | buffer : List Int → DicomValue
  | pos3 : Rat → Rat → Rat → DicomValue
deriving DecidableEq

/-- The `imageType` sub-object of an itk-wasm image. -/
structure ImageType where
  dimension : Nat
  componentType : String
  pixelType : String
  components : Nat
deriving DecidableEq

/-- A 3D itk-wasm image as consumed by the writers: `size`, `spacing`,
`origin` (3 entries each), `direction` (9 entries, row-major 3x3), attached
`metadata` Map and the contiguous pixel `data` buffer. -/
structure Image3D where
  imageType : ImageType
  size : List Nat
  spacing : List Rat
  origin : List Rat
  direction : List Rat
  metadata : List (String × DicomValue)
  data : List Int
deriving DecidableEq

/-- The 2D slice object produced by `extractSlice`. -/
structure Slice2D where
  imageType : ImageType
  name : String
  origin : List Rat
  spacing : List Rat
  direction : List Rat
  size : List Nat
  metadata : List (String × DicomValue)
  data : List Int
  zPosition : Rat
deriving DecidableEq

/-- JavaScript `TypedArray.prototype.slice(begin, end)`: negative indices
count from the end, both endpoints are clamped into `[0, length]`, and the
result is the (possibly empty) range between them. -/
def jsSlice (data : List Int) (b e : Int) : List Int :=
  let len : Int := data.length
  let rb : Int := if b < 0 then max (len + b) 0 else min b len
  let re : Int := if e < 0 then max (len + e) 0 else min e len
  (data.drop rb.toNat).take (re - rb).toNat

/-- `extractSlice(image3D, sliceIndex)` from src/write-image-series.js.
The source computes the slab offset/length, copies the slab out of `data`
with `data.slice`, builds the 2D metadata (top-left 2x2 direction block,
first two sizes/spacings), copies the attached metadata Map, then overwrites
`origin` with the advanced position and stores `zPosition`.  Note the source
reads `direction[6]` and `direction[7]` for the x/y origin advance and
`direction[8]` for z. -/
def extractSlice (image3D : Image3D) (sliceIndex : Int) : Slice2D :=
  let sliceSize : Int := (image3D.size.getD 0 0 * image3D.size.getD 1 0 : Nat)
  let componentsPerPixel : Int := (image3D.imageType.components : Int)
  let sliceOffset : Int := sliceIndex * sliceSize * componentsPerPixel
  let sliceLength : Int := sliceSize * componentsPerPixel
  let sliceData : List Int := jsSlice image3D.data sliceOffset (sliceOffset + sliceLength)
  let originX : Rat :=
    image3D.origin.getD 0 0 + (sliceIndex : Rat) * image3D.spacing.getD 2 0 * image3D.direction.getD 6 0
  let originY : Rat :=
    image3D.origin.getD 1 0 + (sliceIndex : Rat) * image3D.spacing.getD 2 0 * image3D.direction.getD 7 0
  let zPosition : Rat :=
    image3D.origin.getD 2 0 + (sliceIndex : Rat) * image3D.spacing.getD 2 0 * image3D.direction.getD 8 0
  { imageType :=
      { dimension := 2
        componentType := image3D.imageType.componentType
        pixelType := image3D.imageType.pixelType
        components := image3D.imageType.components }
    name := "slice_" ++ toString sliceIndex
    origin := [originX, originY]
    spacing := [image3D.spacing.getD 0 0, image3D.spacing.getD 1 0]
    direction := [image3D.direction.getD 0 0, image3D.direction.getD 1 0,
                  image3D.direction.getD 3 0, image3D.direction.getD 4 0]
    size := [image3D.size.getD 0 0, image3D.size.getD 1 0]
    metadata := image3D.metadata
    data := sliceData
    zPosition := zPosition }

/-- The slice-origin position formula exactly as the spec states it
(spec section 4.1): for axis a in x,y the origin is advanced by
`index * spacing[2] * direction[a*3 + 2]`, i.e. along the third column
of the row-major direction matrix.  Written from the spec wording, to be
compared against `extractSlice` which indexes `direction[6]`/`direction[7]`. -/
def specSliceOrigin (image3D : Image3D) (sliceIndex : Int) : List Rat :=
  [image3D.origin.getD 0 0 + (sliceIndex : Rat) * image3D.spacing.getD 2 0 * image3D.direction.getD 2 0,
   image3D.origin.getD 1 0 + (sliceIndex : Rat) * image3D.spacing.getD 2 0 * image3D.direction.getD 5 0]

/-- JS `Map.prototype.has`. -/
def mapHas : List (String × DicomValue) → String → Bool
  | [], _ => false
  | p :: rest, k => p.1 == k || mapHas rest k

/-- JS `Map.prototype.set`: replaces the value of an existing key in place,
otherwise appends the new entry (a Map never holds a key twice, so replacing
the first matching entry is Map.set). -/
def mapSet : List (String × DicomValue) → String → DicomValue → List (String × DicomValue)
  | [], k, v => [(k, v)]
  | p :: rest, k, v => if p.1 == k then (k, v) :: rest else p :: mapSet rest k v

/-- JS `Map.prototype.get` (none for a missing key). -/
def mapGet : List (String × DicomValue) → String → Option DicomValue
  | [], _ => none
  | p :: rest, k => if p.1 == k then some p.2 else mapGet rest k

/-- Fresh-UID supply standing in for `generateUID()` (Date.now + random
suffix) in both source files; each call returns a distinguishable token and
advances the supply. -/
def generateUID (g : Nat) : DicomValue × Nat := (DicomValue.uid g, g + 1)

/-- JS `x || 1` applied to the number-or-undefined `instanceNumberStart`
option: undefined and 0 are falsy and yield 1. -/
def jsOrOne : Option Int → Int
  | none => 1
  | some n => if n = 0 then 1 else n

/-- JS truthiness of a string-or-undefined option: undefined and the empty
string are falsy. -/
def truthyStr : Option String → Bool
  | none => false
  | some s => s != ""

/-- JS truthiness of the series-UID option in
`options.seriesInstanceUID || generateUID()`: undefined and the empty
string are falsy; a generated token is a non-empty string, hence truthy. -/
def truthyUID : Option DicomValue → Bool
  | none => false
  | some (DicomValue.str s) => s != ""
  | some _ => true

/-- The options object consumed by `createDicomMetadataForSlice`. -/
structure SliceOptions where
  seriesDescription : Option String
  seriesNumber : Option Int
  instanceNumberStart : Option Int
  modality : Option String
  seriesInstanceUID : Option DicomValue
deriving DecidableEq

/-- `createDicomMetadataForSlice` from src/write-image-series.js, with the
fresh-UID supply threaded through.  Mirrors the source statement by
statement: copy the original Map; set the series UID only when absent —
the value is `options.seriesInstanceUID || generateUID()`, so a falsy
(undefined or empty-string) option draws a fresh UID; always set a fresh
SOP instance UID; instance number `sliceIndex + (start || 1)`; image
position and slice location from the slice origin and zPosition (the source
formats them with toFixed(6)); series description when truthy (overwrites);
series number when defined (overwrites); total slice count; modality only
when truthy and the tag is still absent. -/
def createDicomMetadataForSlice (originalMetadata : List (String × DicomValue))
    (sliceIndex : Int) (totalSlices : Nat) (slice2D : Slice2D)
    (options : SliceOptions) (g : Nat) : List (String × DicomValue) × Nat :=
  let metadata := originalMetadata
  let afterSeries : List (String × DicomValue) × Nat :=
    if mapHas metadata "0020|000e" then (metadata, g)
    else
      if truthyUID options.seriesInstanceUID then
        (mapSet metadata "0020|000e" (options.seriesInstanceUID.getD (DicomValue.str "")), g)
      else
        (mapSet metadata "0020|000e" (generateUID g).1, (generateUID g).2)
  let metadata := afterSeries.1
  let sop := generateUID afterSeries.2
  let metadata := mapSet metadata "0008|0018" sop.1
  let instanceNumber : Int := sliceIndex + jsOrOne options.instanceNumberStart
  let metadata := mapSet metadata "0020|0013" (DicomValue.str (toString instanceNumber))
  let metadata := mapSet metadata "0020|0032"
    (DicomValue.pos3 (slice2D.origin.getD 0 0) (slice2D.origin.getD 1 0) slice2D.zPosition)
  let metadata := mapSet metadata "0020|1041" (DicomValue.rat slice2D.zPosition)
  let metadata :=
    if truthyStr options.seriesDescription then
      mapSet metadata "0008|103e" (DicomValue.str (options.seriesDescription.getD ""))
    else metadata
  let metadata :=
    if options.seriesNumber.isSome then
      mapSet metadata "0020|0011" (DicomValue.str (toString (options.seriesNumber.getD 0)))
    else metadata
  let metadata := mapSet metadata "0020|1002" (DicomValue.str (toString totalSlices))
  let metadata :=
    if !(mapHas metadata "0008|0060") && truthyStr options.modality then
      mapSet metadata "0008|0060" (DicomValue.str (options.modality.getD ""))
    else metadata
  (metadata, sop.2)

/-- `String(sliceIdx).padStart(4, '0')`. -/
def padStart4 (s : String) : String :=
  if s.length ≥ 4 then s else String.mk (List.replicate (4 - s.length) '0') ++ s

/-- The options object accepted by `writeImageAsDicomSeries` (undefined
fields take the destructuring defaults). -/
structure WriteOptions where
  fileNamePattern : Option String
  seriesDescription : Option String
  seriesNumber : Option Int
  instanceNumberStart : Option Int
  modality : Option String
  seriesInstanceUID : Option DicomValue
  useCompression : Option Bool
deriving DecidableEq

/-- One entry of the `writtenFiles` result of `writeImageAsDicomSeries`:
the generated filename, the slice index, and the slice handed to the
external gdcm encoder with its tag dictionary installed (the encoded blob
itself comes from the external encoder and is outside the core). -/
structure WrittenFile where
  filename : String
  sliceIndex : Nat
  slice : Slice2D
deriving DecidableEq

/-- The per-slice loop body of `writeImageAsDicomSeries`, iterated over the
ascending slice indices with the fresh-UID supply threaded through: extract
the slice, build its tag dictionary, substitute the zero-padded index into
the filename pattern, append the result. -/
def seriesLoop (image3D : Image3D) (pattern : String) (numSlices : Nat)
    (opts : SliceOptions) : List Nat → Nat → List WrittenFile × Nat
  | [], g => ([], g)
  | sliceIdx :: rest, g =>
    let slice2D := extractSlice image3D (sliceIdx : Int)
    let built := createDicomMetadataForSlice image3D.metadata (sliceIdx : Int) numSlices slice2D opts g
    let filename := pattern.replace "%04d" (padStart4 (toString sliceIdx))
    let tail := seriesLoop image3D pattern numSlices opts rest built.2
    ({ filename := filename
       sliceIndex := sliceIdx
       slice := { slice2D with metadata := built.1 } } :: tail.1, tail.2)

/-- `writeImageAsDicomSeries(image3D, options)` from
src/write-image-series.js: reject a non-3D image up front, apply the
destructuring defaults, then run the per-slice loop over
`0 ≤ sliceIdx < size[2]`.  The `useCompression` flag is only forwarded to
the external encoder.  A 2-entry `size` makes `size[2]` undefined in JS and
the loop body never runs; `List.getD 2 0` reproduces that as zero slices. -/
def writeImageAsDicomSeries (image3D : Image3D) (options : WriteOptions) (g : Nat) :
    Except String (List WrittenFile × Nat) :=
  if image3D.imageType.dimension ≠ 3 then Except.error "Input image must be 3D"
  else
    let fileNamePattern := options.fileNamePattern.getD "slice_%04d.dcm"
    let seriesDescription := options.seriesDescription.getD "Medical Image Series"
    let seriesNumber := options.seriesNumber.getD 1
    let instanceNumberStart := options.instanceNumberStart.getD 1
    let modality := options.modality.getD "OT"
    let seriesUID : DicomValue × Nat :=
      match options.seriesInstanceUID with
      | some u => (u, g)
      | none => generateUID g
    let numSlices := image3D.size.getD 2 0
    let opts : SliceOptions :=
      { seriesDescription := some seriesDescription
        seriesNumber := some seriesNumber
        instanceNumberStart := some instanceNumberStart
        modality := some modality
        seriesInstanceUID := some seriesUID.1 }
    Except.ok (seriesLoop image3D fileNamePattern numSlices opts (List.range numSlices) seriesUID.2)

/-- The per-slice metadata object assembled by
`writeImageAsDicomSeriesWithDcmjs` and destructured by `writeDicomSlice`. -/
structure SliceMetadata where
  seriesInstanceUID : DicomValue
  sopInstanceUID : DicomValue
  instanceNumber : Int
  imagePosition : List Rat
  sliceLocation : Rat
  seriesDescription : String
  seriesNumber : Int
  modality : String
  studyInstanceUID : DicomValue
  studyDate : String
  studyTime : String
deriving DecidableEq

/-- One dataset attribute: its value representation and value list. -/
structure DicomElement where
  vr : String
  value : List DicomValue
deriving DecidableEq

/-- `getBitsAllocated` from src/write-dicom-dcmjs.js: lookup table with a
16-bit default for any other component type. -/
def getBitsAllocated (componentType : String) : Int :=
  if componentType = "int8" then 8
  else if componentType = "uint8" then 8
  else if componentType = "int16" then 16
  else if componentType = "uint16" then 16
  else if componentType = "int32" then 32
  else if componentType = "uint32" then 32
  else 16

/-- `getBitsStored` from src/write-dicom-dcmjs.js. -/
def getBitsStored (componentType : String) : Int :=
  getBitsAllocated componentType

/-- JS `String.prototype.startsWith`, as the character-list prefix test. -/
def jsStartsWith (s pre : String) : Bool :=
  pre.data.isPrefixOf s.data

/-- `isSignedType` from src/write-dicom-dcmjs.js:
`componentType.startsWith("int") && !componentType.startsWith("uint")`. -/
def isSignedType (componentType : String) : Bool :=
  jsStartsWith componentType "int" && !(jsStartsWith componentType "uint")

/-- `getPixelDataVR` from src/write-dicom-dcmjs.js. -/
def getPixelDataVR (componentType : String) : String :=
  let bits := getBitsAllocated componentType
  if bits ≤ 8 then "OB" else if bits ≤ 16 then "OW" else "OL"

/-- `writeDicomSlice(slice2D, metadata)` from src/write-dicom-dcmjs.js:
the dataset literal handed to dcmjs, tag by tag in source order.  The final
`dicomDict.write()` binary serialization is the external encoder; the
embedding returns the dataset itself. -/
def writeDicomSlice (slice2D : Slice2D) (metadata : SliceMetadata) :
    List (String × DicomElement) :=
  [ ("00080016", ⟨"UI", [DicomValue.str "1.2.840.10008.5.1.4.1.1.4"]⟩),
    ("00080018", ⟨"UI", [metadata.sopInstanceUID]⟩),
    ("00100010", ⟨"PN", [DicomValue.alphabetic "Anonymous"]⟩),
    ("00100020", ⟨"LO", [DicomValue.str "ANON123"]⟩),
    ("0020000D", ⟨"UI", [metadata.studyInstanceUID]⟩),
    ("00080020", ⟨"DA", [DicomValue.str metadata.studyDate]⟩),
    ("00080030", ⟨"TM", [DicomValue.str metadata.studyTime]⟩),
    ("0020000E", ⟨"UI", [metadata.seriesInstanceUID]⟩),
    ("00080060", ⟨"CS", [DicomValue.str metadata.modality]⟩),
    ("0008103E", ⟨"LO", [DicomValue.str metadata.seriesDescription]⟩),
    ("00200011", ⟨"IS", [DicomValue.int metadata.seriesNumber]⟩),
    ("00200013", ⟨"IS", [DicomValue.int metadata.instanceNumber]⟩),
    ("00200032", ⟨"DS", metadata.imagePosition.map DicomValue.rat⟩),
    ("00201041", ⟨"DS", [DicomValue.rat metadata.sliceLocation]⟩),
    ("00200037", ⟨"DS", [DicomValue.rat (slice2D.direction.getD 0 0),
                          DicomValue.rat (slice2D.direction.getD 1 0),
                          DicomValue.rat 0,
                          DicomValue.rat (slice2D.direction.getD 2 0),
                          DicomValue.rat (slice2D.direction.getD 3 0),
                          DicomValue.rat 0]⟩),
    ("00280002", ⟨"US", [DicomValue.int (slice2D.imageType.components : Int)]⟩),
    ("00280004", ⟨"CS", [DicomValue.str
        (if slice2D.imageType.components = 1 then "MONOCHROME2" else "RGB")]⟩),
    ("00280010", ⟨"US", [DicomValue.int (slice2D.size.getD 1 0 : Int)]⟩),
    ("00280011", ⟨"US", [DicomValue.int (slice2D.size.getD 0 0 : Int)]⟩),
    ("00280100", ⟨"US", [DicomValue.int (getBitsAllocated slice2D.imageType.componentType)]⟩),
    ("00280101", ⟨"US", [DicomValue.int (getBitsStored slice2D.imageType.componentType)]⟩),
    ("00280102", ⟨"US", [DicomValue.int (getBitsStored slice2D.imageType.componentType - 1)]⟩),
    ("00280103", ⟨"US", [DicomValue.int (if isSignedType slice2D.imageType.componentType then 1 else 0)]⟩),
    ("00280030", ⟨"DS", [DicomValue.rat (slice2D.spacing.getD 1 0),
                          DicomValue.rat (slice2D.spacing.getD 0 0)]⟩),
    ("7FE00010", ⟨getPixelDataVR slice2D.imageType.componentType,
                  [DicomValue.buffer slice2D.data]⟩) ]

/-- Dataset lookup by tag (the dataset object is keyed by tag string). -/
def dsGet (ds : List (String × DicomElement)) (tag : String) : Option DicomElement :=
  (ds.find? (fun e => e.1 == tag)).map (fun e => e.2)

/-- The options object accepted by `writeImageAsDicomSeriesWithDcmjs`. -/
structure DcmjsOptions where
  fileNamePattern : Option String
  seriesDescription : Option String
  seriesNumber : Option Int
  instanceNumberStart : Option Int
  modality : Option String
deriving DecidableEq

/-- One entry of the result of `writeImageAsDicomSeriesWithDcmjs`: the
filename, the slice index, and the dataset handed to `dicomDict.write()`
(the ArrayBuffer/Blob come from the external dcmjs encoder). -/
structure DcmjsWritten where
  filename : String
  sliceIndex : Nat
  dataset : List (String × DicomElement)
deriving DecidableEq

/-- The per-slice loop body of `writeImageAsDicomSeriesWithDcmjs`: extract
the slice, allocate a fresh SOP instance UID, assemble the per-slice
metadata, build the dataset with `writeDicomSlice`, and append the result
with the pattern-substituted filename. -/
def dcmjsLoop (image3D : Image3D) (pattern seriesDescription : String)
    (seriesNumber instanceNumberStart : Int) (modality : String)
    (seriesInstanceUID studyInstanceUID : DicomValue) (studyDate studyTime : String) :
    List Nat → Nat → List DcmjsWritten × Nat
  | [], g => ([], g)
  | sliceIdx :: rest, g =>
    let slice2D := extractSlice image3D (sliceIdx : Int)
    let sop := generateUID g
    let metadata : SliceMetadata :=
      { seriesInstanceUID := seriesInstanceUID
        sopInstanceUID := sop.1
        instanceNumber := (sliceIdx : Int) + instanceNumberStart
        imagePosition := [slice2D.origin.getD 0 0, slice2D.origin.getD 1 0, slice2D.zPosition]
        sliceLocation := slice2D.zPosition
        seriesDescription := seriesDescription
        seriesNumber := seriesNumber
        modality := modality
        studyInstanceUID := studyInstanceUID
        studyDate := studyDate
        studyTime := studyTime }
    let dataset := writeDicomSlice slice2D metadata
    let filename := pattern.replace "%04d" (padStart4 (toString sliceIdx))
    let tail := dcmjsLoop image3D pattern seriesDescription seriesNumber instanceNumberStart
      modality seriesInstanceUID studyInstanceUID studyDate studyTime rest sop.2
    ({ filename := filename, sliceIndex := sliceIdx, dataset := dataset } :: tail.1, tail.2)

/-- `writeImageAsDicomSeriesWithDcmjs(image3D, options)` from
src/write-dicom-dcmjs.js: apply the destructuring defaults, allocate the
study and series UIDs once, and run the per-slice loop over
`0 ≤ sliceIdx < size[2]`.  There is no dimension validation in this entry
point.  `studyDate`/`studyTime` come from the wall clock in the source and
are passed in here.  A short `size` makes `size[2]` undefined in JS and the
loop never runs; `List.getD 2 0` reproduces that as zero slices. -/
def writeImageAsDicomSeriesWithDcmjs (image3D : Image3D) (options : DcmjsOptions)
    (g : Nat) (studyDate studyTime : String) : List DcmjsWritten × Nat :=
  let fileNamePattern := options.fileNamePattern.getD "slice_%04d.dcm"
  let seriesDescription := options.seriesDescription.getD "Medical Image Series"
  let seriesNumber := options.seriesNumber.getD 1
  let instanceNumberStart := options.instanceNumberStart.getD 1
  let modality := options.modality.getD "OT"
  let numSlices := image3D.size.getD 2 0
  let study := generateUID g
  let series := generateUID study.2
  dcmjsLoop image3D fileNamePattern seriesDescription seriesNumber instanceNumberStart modality
    series.1 study.1 studyDate studyTime (List.range numSlices) series.2

/-! Helper lemmas about the Map embedding. -/

theorem mapGet_eq_none_of_not_has (m : List (String × DicomValue)) (k : String)
    (h : mapHas m k = false) : mapGet m k = none := by
  induction m with
  | nil => rfl
  | cons p rest ih =>
    simp only [mapHas, Bool.or_eq_false_iff] at h
    simp only [mapGet, h.1, if_false, Bool.false_eq_true]
    exact ih h.2

@[simp] theorem mapGet_mapSet_same (m : List (String × DicomValue)) (k : String)
    (v : DicomValue) : mapGet (mapSet m k v) k = some v := by
  induction m with
  | nil => simp [mapSet, mapGet]
  | cons p rest ih =>
    by_cases hp : (p.1 == k) = true
    · simp [mapSet, mapGet, hp]
    · simp only [Bool.not_eq_true] at hp
      simp [mapSet, mapGet, hp, ih]

@[simp] theorem mapGet_mapSet_ne (m : List (String × DicomValue)) (j k : String)
    (v : DicomValue) (h : j ≠ k) : mapGet (mapSet m j v) k = mapGet m k := by
  have hjk : (j == k) = false := by simpa using h
  induction m with
  | nil => simp [mapSet, mapGet, hjk]
  | cons p rest ih =>
    by_cases hp : (p.1 == j) = true
    · have hpj : p.1 = j := by simpa using hp
      have hpk : (p.1 == k) = false := by simpa [hpj] using h
      simp [mapSet, mapGet, hp, hpk, hjk]
    · simp only [Bool.not_eq_true] at hp
      by_cases hpk : (p.1 == k) = true
      · simp [mapSet, mapGet, hp, hpk]
      · simp only [Bool.not_eq_true] at hpk
        simp [mapSet, mapGet, hp, hpk, ih]

@[simp] theorem mapHas_mapSet_ne (m : List (String × DicomValue)) (j k : String)
    (v : DicomValue) (h : j ≠ k) : mapHas (mapSet m j v) k = mapHas m k := by
  have hjk : (j == k) = false := by simpa using h
  induction m with
  | nil => simp [mapSet, mapHas, hjk]
  | cons p rest ih =>
    by_cases hp : (p.1 == j) = true
    · have hpj : p.1 = j := by simpa using hp
      have hpk : (p.1 == k) = false := by simpa [hpj] using h
      simp [mapSet, mapHas, hp, hpk, hjk]
    · simp only [Bool.not_eq_true] at hp
      simp [mapSet, mapHas, hp, ih]

/-- `mapGet` through a conditional `mapSet` of a different key. -/
theorem mapGet_ite_mapSet_ne (c : Prop) [Decidable c]
    (m : List (String × DicomValue)) (j k : String) (v : DicomValue) (h : j ≠ k) :
    mapGet (if c then mapSet m j v else m) k = mapGet m k := by
  split
  · exact mapGet_mapSet_ne m j k v h
  · rfl

/-- `mapHas` through a conditional `mapSet` of a different key. -/
theorem mapHas_ite_mapSet_ne (c : Prop) [Decidable c]
    (m : List (String × DicomValue)) (j k : String) (v : DicomValue) (h : j ≠ k) :
    mapHas (if c then mapSet m j v else m) k = mapHas m k := by
  split
  · exact mapHas_mapSet_ne m j k v h
  · rfl

/-- `mapGet` through the set-if-absent series step (a state/map pair whose
two else branches set a different key). -/
theorem mapGet_fst_seriesStep_ne (c1 c2 : Prop) [Decidable c1] [Decidable c2]
    (m : List (String × DicomValue)) (j k : String) (v1 v2 : DicomValue)
    (g1 g2 g3 : Nat) (h : j ≠ k) :
    mapGet (if c1 then (m, g1)
        else if c2 then (mapSet m j v1, g2) else (mapSet m j v2, g3)).1 k
      = mapGet m k := by
  split
  · rfl
  · split
    · exact mapGet_mapSet_ne m j k v1 h
    · exact mapGet_mapSet_ne m j k v2 h

/-- `mapHas` through the set-if-absent series step. -/
theorem mapHas_fst_seriesStep_ne (c1 c2 : Prop) [Decidable c1] [Decidable c2]
    (m : List (String × DicomValue)) (j k : String) (v1 v2 : DicomValue)
    (g1 g2 g3 : Nat) (h : j ≠ k) :
    mapHas (if c1 then (m, g1)
        else if c2 then (mapSet m j v1, g2) else (mapSet m j v2, g3)).1 k
      = mapHas m k := by
  split
  · rfl
  · split
    · exact mapHas_mapSet_ne m j k v1 h
    · exact mapHas_mapSet_ne m j k v2 h

/-! Helper lemmas about `createDicomMetadataForSlice`.  The abbreviation cdm
below refers to that function; `hsome`/`htr` state that the caller supplied
a truthy series UID option. -/

/-- How many fresh UIDs the series step of the dictionary builder draws:
one exactly when the series tag is absent from the base dictionary and the
caller series-UID option is falsy (the `options.seriesInstanceUID ||
generateUID()` expression then calls the generator), else zero. -/
def cdmSeriesUses (base : List (String × DicomValue)) (options : SliceOptions) : Nat :=
  if mapHas base "0020|000e" then 0
  else if truthyUID options.seriesInstanceUID then 0 else 1

theorem cdm_snd (base : List (String × DicomValue)) (i : Int) (n : Nat) (s2d : Slice2D)
    (opts : SliceOptions) (g : Nat) :
    (createDicomMetadataForSlice base i n s2d opts g).2
      = g + cdmSeriesUses base opts + 1 := by
  unfold createDicomMetadataForSlice cdmSeriesUses
  simp only [generateUID]
  split
  · rfl
  · split
    · rfl
    · rfl

theorem cdm_get_sop (base : List (String × DicomValue)) (i : Int) (n : Nat) (s2d : Slice2D)
    (opts : SliceOptions) (g : Nat) :
    mapGet (createDicomMetadataForSlice base i n s2d opts g).1 "0008|0018"
      = some (DicomValue.uid (g + cdmSeriesUses base opts)) := by
  unfold createDicomMetadataForSlice cdmSeriesUses
  simp only [generateUID]
  rw [mapGet_ite_mapSet_ne _ _ _ _ _ (by decide)]
  rw [mapGet_mapSet_ne _ _ _ _ (by decide)]
  rw [mapGet_ite_mapSet_ne _ _ _ _ _ (by decide)]
  rw [mapGet_ite_mapSet_ne _ _ _ _ _ (by decide)]
  rw [mapGet_mapSet_ne _ _ _ _ (by decide)]
  rw [mapGet_mapSet_ne _ _ _ _ (by decide)]
  rw [mapGet_mapSet_ne _ _ _ _ (by decide)]
  rw [mapGet_mapSet_same]
  split
  · simp
  · split
    · simp
    · simp

theorem cdm_get_series (base : List (String × DicomValue)) (i : Int) (n : Nat) (s2d : Slice2D)
    (opts : SliceOptions) (g : Nat) (u : DicomValue)
    (hsome : opts.seriesInstanceUID = some u)
    (htr : truthyUID opts.seriesInstanceUID = true) :
    mapGet (createDicomMetadataForSlice base i n s2d opts g).1 "0020|000e"
      = (if mapHas base "0020|000e" then mapGet base "0020|000e" else some u) := by
  unfold createDicomMetadataForSlice
  simp only [generateUID]
  rw [mapGet_ite_mapSet_ne _ _ _ _ _ (by decide)]
  rw [mapGet_mapSet_ne _ _ _ _ (by decide)]
  rw [mapGet_ite_mapSet_ne _ _ _ _ _ (by decide)]
  rw [mapGet_ite_mapSet_ne _ _ _ _ _ (by decide)]
  rw [mapGet_mapSet_ne _ _ _ _ (by decide)]
  rw [mapGet_mapSet_ne _ _ _ _ (by decide)]
  rw [mapGet_mapSet_ne _ _ _ _ (by decide)]
  rw [mapGet_mapSet_ne _ _ _ _ (by decide)]
  by_cases hc : mapHas base "0020|000e" = true
  · simp [hc]
  · simp only [Bool.not_eq_true] at hc
    rw [hsome] at htr
    simp [hc, hsome, htr]

/-- When the series tag is absent and the series-UID option is falsy, the
builder stores a freshly generated series UID (distinct per call). -/
theorem cdm_get_series_falsy (base : List (String × DicomValue)) (i : Int) (n : Nat)
    (s2d : Slice2D) (opts : SliceOptions) (g : Nat)
    (hhas : mapHas base "0020|000e" = false)
    (htr : truthyUID opts.seriesInstanceUID = false) :
    mapGet (createDicomMetadataForSlice base i n s2d opts g).1 "0020|000e"
      = some (DicomValue.uid g) := by
  unfold createDicomMetadataForSlice
  simp only [generateUID]
  rw [mapGet_ite_mapSet_ne _ _ _ _ _ (by decide)]
  rw [mapGet_mapSet_ne _ _ _ _ (by decide)]
  rw [mapGet_ite_mapSet_ne _ _ _ _ _ (by decide)]
  rw [mapGet_ite_mapSet_ne _ _ _ _ _ (by decide)]
  rw [mapGet_mapSet_ne _ _ _ _ (by decide)]
  rw [mapGet_mapSet_ne _ _ _ _ (by decide)]
  rw [mapGet_mapSet_ne _ _ _ _ (by decide)]
  rw [mapGet_mapSet_ne _ _ _ _ (by decide)]
  simp [hhas, htr]

theorem cdm_get_inst (base : List (String × DicomValue)) (i : Int) (n : Nat) (s2d : Slice2D)
    (opts : SliceOptions) (g : Nat) :
    mapGet (createDicomMetadataForSlice base i n s2d opts g).1 "0020|0013"
      = some (DicomValue.str (toString (i + jsOrOne opts.instanceNumberStart))) := by
  unfold createDicomMetadataForSlice
  simp only [generateUID]
  rw [mapGet_ite_mapSet_ne _ _ _ _ _ (by decide)]
  rw [mapGet_mapSet_ne _ _ _ _ (by decide)]
  rw [mapGet_ite_mapSet_ne _ _ _ _ _ (by decide)]
  rw [mapGet_ite_mapSet_ne _ _ _ _ _ (by decide)]
  rw [mapGet_mapSet_ne _ _ _ _ (by decide)]
  rw [mapGet_mapSet_ne _ _ _ _ (by decide)]
  rw [mapGet_mapSet_same]

theorem cdm_get_desc_truthy (base : List (String × DicomValue)) (i : Int) (n : Nat)
    (s2d : Slice2D) (opts : SliceOptions) (g : Nat)
    (htr : truthyStr opts.seriesDescription = true) :
    mapGet (createDicomMetadataForSlice base i n s2d opts g).1 "0008|103e"
      = some (DicomValue.str (opts.seriesDescription.getD "")) := by
  unfold createDicomMetadataForSlice
  simp only [generateUID]
  rw [mapGet_ite_mapSet_ne _ _ _ _ _ (by decide)]
  rw [mapGet_mapSet_ne _ _ _ _ (by decide)]
  rw [mapGet_ite_mapSet_ne _ _ _ _ _ (by decide)]
  simp only [htr, if_true]
  rw [mapGet_mapSet_same]

theorem cdm_get_desc_falsy (base : List (String × DicomValue)) (i : Int) (n : Nat)
    (s2d : Slice2D) (opts : SliceOptions) (g : Nat)
    (htr : truthyStr opts.seriesDescription = false) :
    mapGet (createDicomMetadataForSlice base i n s2d opts g).1 "0008|103e"
      = mapGet base "0008|103e" := by
  unfold createDicomMetadataForSlice
  simp only [generateUID]
  rw [mapGet_ite_mapSet_ne _ _ _ _ _ (by decide)]
  rw [mapGet_mapSet_ne _ _ _ _ (by decide)]
  rw [mapGet_ite_mapSet_ne _ _ _ _ _ (by decide)]
  simp only [htr, Bool.false_eq_true, if_false]
  rw [mapGet_mapSet_ne _ _ _ _ (by decide)]
  rw [mapGet_mapSet_ne _ _ _ _ (by decide)]
  rw [mapGet_mapSet_ne _ _ _ _ (by decide)]
  rw [mapGet_mapSet_ne _ _ _ _ (by decide)]
  rw [mapGet_fst_seriesStep_ne _ _ _ _ _ _ _ _ _ _ (by decide)]

theorem cdm_get_num_some (base : List (String × DicomValue)) (i : Int) (n : Nat)
    (s2d : Slice2D) (opts : SliceOptions) (g : Nat) (sn : Int)
    (hn : opts.seriesNumber = some sn) :
    mapGet (createDicomMetadataForSlice base i n s2d opts g).1 "0020|0011"
      = some (DicomValue.str (toString sn)) := by
  unfold createDicomMetadataForSlice
  simp only [generateUID, hn, Option.isSome_some, if_true, Option.getD_some]
  rw [mapGet_ite_mapSet_ne _ _ _ _ _ (by decide)]
  rw [mapGet_mapSet_ne _ _ _ _ (by decide)]
  rw [mapGet_mapSet_same]

theorem cdm_get_num_none (base : List (String × DicomValue)) (i : Int) (n : Nat)
    (s2d : Slice2D) (opts : SliceOptions) (g : Nat)
    (hn : opts.seriesNumber = none) :
    mapGet (createDicomMetadataForSlice base i n s2d opts g).1 "0020|0011"
      = mapGet base "0020|0011" := by
  unfold createDicomMetadataForSlice
  simp only [generateUID, hn, Option.isSome_none, Bool.false_eq_true, if_false]
  rw [mapGet_ite_mapSet_ne _ _ _ _ _ (by decide)]
  rw [mapGet_mapSet_ne _ _ _ _ (by decide)]
  rw [mapGet_ite_mapSet_ne _ _ _ _ _ (by decide)]
  rw [mapGet_mapSet_ne _ _ _ _ (by decide)]
  rw [mapGet_mapSet_ne _ _ _ _ (by decide)]
  rw [mapGet_mapSet_ne _ _ _ _ (by decide)]
  rw [mapGet_mapSet_ne _ _ _ _ (by decide)]
  rw [mapGet_fst_seriesStep_ne _ _ _ _ _ _ _ _ _ _ (by decide)]

theorem cdm_get_modality_has (base : List (String × DicomValue)) (i : Int) (n : Nat)
    (s2d : Slice2D) (opts : SliceOptions) (g : Nat)
    (hhas : mapHas base "0008|0060" = true) :
    mapGet (createDicomMetadataForSlice base i n s2d opts g).1 "0008|0060"
      = mapGet base "0008|0060" := by
  unfold createDicomMetadataForSlice
  simp only [generateUID]
  rw [mapHas_mapSet_ne _ _ _ _ (by decide)]
  rw [mapHas_ite_mapSet_ne _ _ _ _ _ (by decide)]
  rw [mapHas_ite_mapSet_ne _ _ _ _ _ (by decide)]
  rw [mapHas_mapSet_ne _ _ _ _ (by decide)]
  rw [mapHas_mapSet_ne _ _ _ _ (by decide)]
  rw [mapHas_mapSet_ne _ _ _ _ (by decide)]
  rw [mapHas_mapSet_ne _ _ _ _ (by decide)]
  rw [mapHas_fst_seriesStep_ne _ _ _ _ _ _ _ _ _ _ (by decide)]
  simp only [hhas, Bool.not_true, Bool.false_and, Bool.false_eq_true, if_false]
  rw [mapGet_mapSet_ne _ _ _ _ (by decide)]
  rw [mapGet_ite_mapSet_ne _ _ _ _ _ (by decide)]
  rw [mapGet_ite_mapSet_ne _ _ _ _ _ (by decide)]
  rw [mapGet_mapSet_ne _ _ _ _ (by decide)]
  rw [mapGet_mapSet_ne _ _ _ _ (by decide)]
  rw [mapGet_mapSet_ne _ _ _ _ (by decide)]
  rw [mapGet_mapSet_ne _ _ _ _ (by decide)]
  rw [mapGet_fst_seriesStep_ne _ _ _ _ _ _ _ _ _ _ (by decide)]

theorem cdm_get_modality_absent_truthy (base : List (String × DicomValue)) (i : Int)
    (n : Nat) (s2d : Slice2D) (opts : SliceOptions) (g : Nat)
    (hhas : mapHas base "0008|0060" = false) (htr : truthyStr opts.modality = true) :
    mapGet (createDicomMetadataForSlice base i n s2d opts g).1 "0008|0060"
      = some (DicomValue.str (opts.modality.getD "")) := by
  unfold createDicomMetadataForSlice
  simp only [generateUID]
  rw [mapHas_mapSet_ne _ _ _ _ (by decide)]
  rw [mapHas_ite_mapSet_ne _ _ _ _ _ (by decide)]
  rw [mapHas_ite_mapSet_ne _ _ _ _ _ (by decide)]
  rw [mapHas_mapSet_ne _ _ _ _ (by decide)]
  rw [mapHas_mapSet_ne _ _ _ _ (by decide)]
  rw [mapHas_mapSet_ne _ _ _ _ (by decide)]
  rw [mapHas_mapSet_ne _ _ _ _ (by decide)]
  rw [mapHas_fst_seriesStep_ne _ _ _ _ _ _ _ _ _ _ (by decide)]
  simp only [hhas, htr, Bool.not_false, Bool.true_and, if_true]
  rw [mapGet_mapSet_same]

theorem cdm_get_modality_absent_falsy (base : List (String × DicomValue)) (i : Int)
    (n : Nat) (s2d : Slice2D) (opts : SliceOptions) (g : Nat)
    (hhas : mapHas base "0008|0060" = false) (htr : truthyStr opts.modality = false) :
    mapGet (createDicomMetadataForSlice base i n s2d opts g).1 "0008|0060" = none := by
  unfold createDicomMetadataForSlice
  simp only [generateUID]
  rw [mapHas_mapSet_ne _ _ _ _ (by decide)]
  rw [mapHas_ite_mapSet_ne _ _ _ _ _ (by decide)]
  rw [mapHas_ite_mapSet_ne _ _ _ _ _ (by decide)]
  rw [mapHas_mapSet_ne _ _ _ _ (by decide)]
  rw [mapHas_mapSet_ne _ _ _ _ (by decide)]
  rw [mapHas_mapSet_ne _ _ _ _ (by decide)]
  rw [mapHas_mapSet_ne _ _ _ _ (by decide)]
  rw [mapHas_fst_seriesStep_ne _ _ _ _ _ _ _ _ _ _ (by decide)]
  simp only [htr, Bool.and_false, Bool.false_eq_true, if_false]
  rw [mapGet_mapSet_ne _ _ _ _ (by decide)]
  rw [mapGet_ite_mapSet_ne _ _ _ _ _ (by decide)]
  rw [mapGet_ite_mapSet_ne _ _ _ _ _ (by decide)]
  rw [mapGet_mapSet_ne _ _ _ _ (by decide)]
  rw [mapGet_mapSet_ne _ _ _ _ (by decide)]
  rw [mapGet_mapSet_ne _ _ _ _ (by decide)]
  rw [mapGet_mapSet_ne _ _ _ _ (by decide)]
  rw [mapGet_fst_seriesStep_ne _ _ _ _ _ _ _ _ _ _ (by decide)]
  exact mapGet_eq_none_of_not_has base _ hhas


/-! Helper lemmas: dataset lookups on `writeDicomSlice`, and the two
per-slice loops. -/

theorem dsGet_class (s : Slice2D) (md : SliceMetadata) :
    dsGet (writeDicomSlice s md) "00080016"
      = some ⟨"UI", [DicomValue.str "1.2.840.10008.5.1.4.1.1.4"]⟩ := rfl

theorem dsGet_sop (s : Slice2D) (md : SliceMetadata) :
    dsGet (writeDicomSlice s md) "00080018" = some ⟨"UI", [md.sopInstanceUID]⟩ := rfl

theorem dsGet_patient_name (s : Slice2D) (md : SliceMetadata) :
    dsGet (writeDicomSlice s md) "00100010"
      = some ⟨"PN", [DicomValue.alphabetic "Anonymous"]⟩ := rfl

theorem dsGet_patient_id (s : Slice2D) (md : SliceMetadata) :
    dsGet (writeDicomSlice s md) "00100020" = some ⟨"LO", [DicomValue.str "ANON123"]⟩ := rfl

theorem dsGet_series (s : Slice2D) (md : SliceMetadata) :
    dsGet (writeDicomSlice s md) "0020000E" = some ⟨"UI", [md.seriesInstanceUID]⟩ := rfl

theorem dsGet_inst (s : Slice2D) (md : SliceMetadata) :
    dsGet (writeDicomSlice s md) "00200013"
      = some ⟨"IS", [DicomValue.int md.instanceNumber]⟩ := rfl

theorem dsGet_bits_allocated (s : Slice2D) (md : SliceMetadata) :
    dsGet (writeDicomSlice s md) "00280100"
      = some ⟨"US", [DicomValue.int (getBitsAllocated s.imageType.componentType)]⟩ := rfl

theorem dsGet_bits_stored (s : Slice2D) (md : SliceMetadata) :
    dsGet (writeDicomSlice s md) "00280101"
      = some ⟨"US", [DicomValue.int (getBitsStored s.imageType.componentType)]⟩ := rfl

theorem dsGet_high_bit (s : Slice2D) (md : SliceMetadata) :
    dsGet (writeDicomSlice s md) "00280102"
      = some ⟨"US", [DicomValue.int (getBitsStored s.imageType.componentType - 1)]⟩ := rfl

theorem dsGet_pixel_representation (s : Slice2D) (md : SliceMetadata) :
    dsGet (writeDicomSlice s md) "00280103"
      = some ⟨"US", [DicomValue.int (if isSignedType s.imageType.componentType then 1 else 0)]⟩ := rfl

theorem seriesLoop_length (img : Image3D) (pattern : String) (n : Nat)
    (opts : SliceOptions) : ∀ (l : List Nat) (g : Nat),
    ((seriesLoop img pattern n opts l g).1).length = l.length
  | [], _ => rfl
  | i :: rest, g => by
    simp only [seriesLoop, List.length_cons]
    rw [seriesLoop_length img pattern n opts rest _]

theorem seriesLoop_map_sop (img : Image3D) (pattern : String) (n : Nat)
    (opts : SliceOptions) : ∀ (l : List Nat) (g : Nat),
    ((seriesLoop img pattern n opts l g).1).map (fun f => mapGet f.slice.metadata "0008|0018")
      = (List.range' (g + cdmSeriesUses img.metadata opts) l.length
          (cdmSeriesUses img.metadata opts + 1)).map (fun m => some (DicomValue.uid m))
  | [], _ => rfl
  | i :: rest, g => by
    simp only [seriesLoop, List.map_cons, List.length_cons, List.range'_succ]
    rw [cdm_snd]
    rw [cdm_get_sop]
    rw [seriesLoop_map_sop img pattern n opts rest
      (g + cdmSeriesUses img.metadata opts + 1)]
    rw [show g + cdmSeriesUses img.metadata opts + 1 + cdmSeriesUses img.metadata opts
        = g + cdmSeriesUses img.metadata opts + (cdmSeriesUses img.metadata opts + 1) by
      omega]

theorem seriesLoop_map_series (img : Image3D) (pattern : String) (n : Nat)
    (opts : SliceOptions) (u : DicomValue) (hsome : opts.seriesInstanceUID = some u)
    (htr : truthyUID opts.seriesInstanceUID = true) :
    ∀ (l : List Nat) (g : Nat),
    ((seriesLoop img pattern n opts l g).1).map (fun f => mapGet f.slice.metadata "0020|000e")
      = List.replicate l.length
          (if mapHas img.metadata "0020|000e" then mapGet img.metadata "0020|000e" else some u)
  | [], _ => rfl
  | i :: rest, g => by
    simp only [seriesLoop, List.map_cons, List.length_cons, List.replicate_succ]
    rw [cdm_get_series _ _ _ _ _ _ _ hsome htr]
    rw [seriesLoop_map_series img pattern n opts u hsome htr rest _]

theorem seriesLoop_map_inst (img : Image3D) (pattern : String) (n : Nat)
    (opts : SliceOptions) : ∀ (l : List Nat) (g : Nat),
    ((seriesLoop img pattern n opts l g).1).map (fun f => mapGet f.slice.metadata "0020|0013")
      = l.map (fun (i : Nat) =>
          some (DicomValue.str (toString ((i : Int) + jsOrOne opts.instanceNumberStart))))
  | [], _ => rfl
  | i :: rest, g => by
    simp only [seriesLoop, List.map_cons]
    rw [cdm_get_inst]
    rw [seriesLoop_map_inst img pattern n opts rest _]

theorem dcmjsLoop_length (img : Image3D) (pattern sd : String) (sn ins : Int)
    (mo : String) (su st : DicomValue) (d t : String) : ∀ (l : List Nat) (g : Nat),
    ((dcmjsLoop img pattern sd sn ins mo su st d t l g).1).length = l.length
  | [], _ => rfl
  | i :: rest, g => by
    simp only [dcmjsLoop, List.length_cons]
    rw [dcmjsLoop_length img pattern sd sn ins mo su st d t rest _]

theorem dcmjsLoop_map_sop (img : Image3D) (pattern sd : String) (sn ins : Int)
    (mo : String) (su st : DicomValue) (d t : String) : ∀ (l : List Nat) (g : Nat),
    ((dcmjsLoop img pattern sd sn ins mo su st d t l g).1).map
        (fun r => dsGet r.dataset "00080018")
      = (List.range' g l.length).map (fun m => some ⟨"UI", [DicomValue.uid m]⟩)
  | [], _ => rfl
  | i :: rest, g => by
    simp only [dcmjsLoop, List.map_cons, List.length_cons, List.range'_succ, generateUID]
    rw [dsGet_sop]
    rw [dcmjsLoop_map_sop img pattern sd sn ins mo su st d t rest (g + 1)]

theorem dcmjsLoop_map_series (img : Image3D) (pattern sd : String) (sn ins : Int)
    (mo : String) (su st : DicomValue) (d t : String) : ∀ (l : List Nat) (g : Nat),
    ((dcmjsLoop img pattern sd sn ins mo su st d t l g).1).map
        (fun r => dsGet r.dataset "0020000E")
      = List.replicate l.length (some ⟨"UI", [su]⟩)
  | [], _ => rfl
  | i :: rest, g => by
    simp only [dcmjsLoop, List.map_cons, List.length_cons, List.replicate_succ]
    rw [dsGet_series]
    rw [dcmjsLoop_map_series img pattern sd sn ins mo su st d t rest _]

theorem dcmjsLoop_map_inst (img : Image3D) (pattern sd : String) (sn ins : Int)
    (mo : String) (su st : DicomValue) (d t : String) : ∀ (l : List Nat) (g : Nat),
    ((dcmjsLoop img pattern sd sn ins mo su st d t l g).1).map
        (fun r => dsGet r.dataset "00200013")
      = l.map (fun (i : Nat) => some ⟨"IS", [DicomValue.int ((i : Int) + ins)]⟩)
  | [], _ => rfl
  | i :: rest, g => by
    simp only [dcmjsLoop, List.map_cons]
    rw [dsGet_inst]
    rw [dcmjsLoop_map_inst img pattern sd sn ins mo su st d t rest _]

/-! Helper lemmas about `jsSlice` and the extracted slab. -/

theorem jsSlice_of_bounds (data : List Int) (b e : Int) (hb : 0 ≤ b) (hbe : b ≤ e)
    (he : e ≤ (data.length : Int)) :
    jsSlice data b e = (data.drop b.toNat).take (e - b).toNat := by
  simp only [jsSlice]
  rw [if_neg (by omega), if_neg (by omega)]
  rw [show min b (data.length : Int) = b by omega]
  rw [show min e (data.length : Int) = e by omega]

theorem jsSlice_high (data : List Int) (b e : Int) (hb : (data.length : Int) ≤ b)
    (h0 : 0 ≤ b) : jsSlice data b e = [] := by
  simp only [jsSlice]
  rw [if_neg (show ¬ b < 0 by omega)]
  rw [show min b (data.length : Int) = (data.length : Int) by omega]
  rw [show ((data.length : Int)).toNat = data.length by omega]
  rw [List.drop_length]
  exact List.take_nil

/-- The slab length `size[0] * size[1] * componentsPerPixel` of an image. -/
def slabSize (image3D : Image3D) : Nat :=
  image3D.size.getD 0 0 * image3D.size.getD 1 0 * image3D.imageType.components

/-- The volume-buffer length invariant of the data model. -/
def bufferInvariant (image3D : Image3D) : Prop :=
  image3D.data.length
    = image3D.size.getD 0 0 * image3D.size.getD 1 0 * image3D.size.getD 2 0
        * image3D.imageType.components

instance (image3D : Image3D) : Decidable (bufferInvariant image3D) := by
  unfold bufferInvariant
  infer_instance

theorem extractSlice_offset_eq (img : Image3D) (i : Int) (h0 : 0 ≤ i) :
    i * ((img.size.getD 0 0 * img.size.getD 1 0 : Nat) : Int) * (img.imageType.components : Int)
      = ((i.toNat * slabSize img : Nat) : Int) := by
  push_cast [slabSize]
  rw [Int.toNat_of_nonneg h0]
  ring

/-- The slab for an in-range index lies entirely inside the volume buffer:
the extraction reads no element outside it. -/
theorem slab_bound (img : Image3D) (i : Int) (hlen : bufferInvariant img)
    (h0 : 0 ≤ i) (hi : i < (img.size.getD 2 0 : Int)) :
    i.toNat * slabSize img + slabSize img ≤ img.data.length := by
  unfold bufferInvariant at hlen
  have hi2 : i.toNat + 1 ≤ img.size.getD 2 0 := by omega
  calc i.toNat * slabSize img + slabSize img
      = (i.toNat + 1) * slabSize img := by ring
    _ ≤ img.size.getD 2 0 * slabSize img := Nat.mul_le_mul_right _ hi2
    _ = img.data.length := by rw [hlen]; unfold slabSize; ring

theorem extractSlice_data_in_range (img : Image3D) (i : Int)
    (hlen : bufferInvariant img) (h0 : 0 ≤ i) (hi : i < (img.size.getD 2 0 : Int)) :
    (extractSlice img i).data = (img.data.drop (i.toNat * slabSize img)).take (slabSize img) := by
  have hoff := extractSlice_offset_eq img i h0
  have hbound : i.toNat * slabSize img + slabSize img ≤ img.data.length :=
    slab_bound img i hlen h0 hi
  simp only [extractSlice]
  rw [hoff]
  rw [show ((i.toNat * slabSize img : Nat) : Int)
        + ((img.size.getD 0 0 * img.size.getD 1 0 : Nat) : Int) * (img.imageType.components : Int)
      = ((i.toNat * slabSize img + slabSize img : Nat) : Int) by push_cast [slabSize]; ring]
  rw [jsSlice_of_bounds _ _ _ (by positivity) (by exact_mod_cast Nat.le_add_right _ _)
    (by exact_mod_cast hbound)]
  rw [show (((i.toNat * slabSize img : Nat) : Int)).toNat = i.toNat * slabSize img by omega]
  rw [show (((i.toNat * slabSize img + slabSize img : Nat) : Int)
        - ((i.toNat * slabSize img : Nat) : Int)).toNat = slabSize img by omega]

theorem extractSlice_data_high (img : Image3D) (i : Int)
    (hlen : bufferInvariant img) (hi : (img.size.getD 2 0 : Int) ≤ i) :
    (extractSlice img i).data = [] := by
  unfold bufferInvariant at hlen
  have h0 : 0 ≤ i := le_trans (by positivity) hi
  have hoff := extractSlice_offset_eq img i h0
  have hbound : img.data.length ≤ i.toNat * slabSize img := by
    have hi2 : img.size.getD 2 0 ≤ i.toNat := by omega
    calc img.data.length = img.size.getD 2 0 * slabSize img := by
          rw [hlen]; unfold slabSize; ring
      _ ≤ i.toNat * slabSize img := Nat.mul_le_mul_right _ hi2
  simp only [extractSlice]
  rw [hoff]
  exact jsSlice_high _ _ _ (by exact_mod_cast hbound) (by positivity)

/-- Destructuring the successful result of `writeImageAsDicomSeries`: the
produced files are the per-slice loop over the ascending indices, with every
option filled by its destructuring default and the series UID option always
supplied. -/
theorem writeImageAsDicomSeries_ok (img : Image3D) (opts : WriteOptions) (g : Nat)
    (files : List WrittenFile) (gF : Nat)
    (h : writeImageAsDicomSeries img opts g = Except.ok (files, gF)) :
    ∃ (opts1 : SliceOptions) (u : DicomValue) (g0 : Nat),
      opts1.seriesInstanceUID = some u
      ∧ opts1.instanceNumberStart = some (opts.instanceNumberStart.getD 1)
      ∧ (∀ v, opts.seriesInstanceUID = some v → u = v)
      ∧ (opts.seriesInstanceUID = none → u = DicomValue.uid g)
      ∧ files = (seriesLoop img (opts.fileNamePattern.getD "slice_%04d.dcm")
          (img.size.getD 2 0) opts1 (List.range (img.size.getD 2 0)) g0).1 := by
  simp only [writeImageAsDicomSeries] at h
  split at h
  · cases h
  · rw [Except.ok.injEq] at h
    refine ⟨_, _, _, rfl, rfl, ?_, ?_, (congrArg Prod.fst h).symm⟩
    · intro v hv
      rw [hv]
    · intro hv
      rw [hv]
      rfl

/-- Every element of a list whose image is constant maps to that constant. -/
theorem map_eq_replicate_forall {α β : Type} (L : List α) (f : α → β) (c : β)
    (hmap : L.map f = List.replicate L.length c) : ∀ a ∈ L, f a = c := by
  intro a ha
  have hmem : f a ∈ L.map f := List.mem_map_of_mem f ha
  rw [hmap] at hmem
  exact List.eq_of_mem_replicate hmem

/-! Concrete inputs used by counterexamples and witnesses. -/

/-- A 3D volume whose direction matrix is the cyclic permutation: its third
column (entries 2, 5, 8) and third row (entries 6, 7, 8) differ. -/
def c1Volume : Image3D :=
  { imageType := { dimension := 3, componentType := "uint8", pixelType := "Scalar", components := 1 }
    size := [1, 1, 2]
    spacing := [1, 1, 1]
    origin := [0, 0, 0]
    direction := [0, 0, 1, 1, 0, 0, 0, 1, 0]
    metadata := []
    data := [7, 9] }

/-- The identity-direction volume of the spec's position example:
origin 0, spacing [1,1,2]. -/
def c1IdentityVolume : Image3D :=
  { imageType := { dimension := 3, componentType := "uint8", pixelType := "Scalar", components := 1 }
    size := [1, 1, 4]
    spacing := [1, 1, 2]
    origin := [0, 0, 0]
    direction := [1, 0, 0, 0, 1, 0, 0, 0, 1]
    metadata := []
    data := [0, 0, 0, 0] }

/-- A well-formed 2x2x3 single-component 3D volume. -/
def c2Volume : Image3D :=
  { imageType := { dimension := 3, componentType := "uint8", pixelType := "Scalar", components := 1 }
    size := [2, 2, 3]
    spacing := [1, 1, 1]
    origin := [0, 0, 0]
    direction := [1, 0, 0, 0, 1, 0, 0, 0, 1]
    metadata := []
    data := [0, 1, 2, 3, 4, 5, 6, 7, 8, 9, 10, 11] }

/-- A volume whose `imageType.dimension` is 2. -/
def c2Volume2d : Image3D :=
  { imageType := { dimension := 2, componentType := "uint8", pixelType := "Scalar", components := 1 }
    size := [2, 2]
    spacing := [1, 1]
    origin := [0, 0]
    direction := [1, 0, 0, 1]
    metadata := []
    data := [0, 1, 2, 3] }

/-- A dimension-2 volume that still carries three size entries, so the
dcmjs writer (which never checks the dimension) processes `size[2]`
slices. -/
def c3Volume : Image3D :=
  { imageType := { dimension := 2, componentType := "uint8", pixelType := "Scalar", components := 1 }
    size := [1, 1, 2]
    spacing := [1, 1, 1]
    origin := [0, 0, 0]
    direction := [1, 0, 0, 0, 1, 0, 0, 0, 1]
    metadata := []
    data := [5, 6] }

/-- Empty dcmjs options (all destructuring defaults). -/
def c3DcmjsOptions : DcmjsOptions :=
  { fileNamePattern := none, seriesDescription := none, seriesNumber := none
    instanceNumberStart := none, modality := none }

/-- Empty writer options (all destructuring defaults). -/
def c3WriteOptions : WriteOptions :=
  { fileNamePattern := none, seriesDescription := none, seriesNumber := none
    instanceNumberStart := none, modality := none, seriesInstanceUID := none
    useCompression := none }

/-! The claims. -/

/-- Claim C1 (code bug in `extractSlice`): the spec position formula
`origin[a] = origin[a] + index * spacing[2] * direction[a*3 + 2]` advances
along the third matrix column (entries 2 and 5 for x and y), and the source
comment above the computation says the same (direction_column_2), but the
code reads `direction[6]` and `direction[7]` — the third row.  On the cyclic
permutation direction matrix at index 1 the code yields origin [0, 1] while
the documented formula yields [1, 0].  The zPosition component uses entry 8,
where row and column agree, so the spec's identity-direction example
(zPosition 6, origin [0,0] at index 3 with spacing [1,1,2]) does hold. -/
theorem extractSlice_position_row_bug :
    (extractSlice c1Volume 1).origin = [0, 1]
    ∧ specSliceOrigin c1Volume 1 = [1, 0]
    ∧ (extractSlice c1Volume 1).origin ≠ specSliceOrigin c1Volume 1
    ∧ (extractSlice c1Volume 1).zPosition = 0
    ∧ (extractSlice c1IdentityVolume 3).zPosition = 6
    ∧ (extractSlice c1IdentityVolume 3).origin = [0, 0] := by
  refine ⟨?_, ?_, ?_, ?_, ?_, ?_⟩ <;>
    norm_num [extractSlice, specSliceOrigin, c1Volume, c1IdentityVolume]

/-- Claim C2 counterexample: `extractSlice` has no index or dimension
validation at all.  At index 3 = size[2] on a valid 3D volume it returns a
CrossSection with an empty (clamped) buffer instead of failing with
RangeError; at index -1 likewise; on a volume with dimension 2 it returns a
CrossSection instead of failing with FormatError. -/
theorem extractSlice_no_validation_cex :
    (extractSlice c2Volume 3).data = []
    ∧ (extractSlice c2Volume 3).size = [2, 2]
    ∧ (extractSlice c2Volume (-1)).data = []
    ∧ c2Volume2d.imageType.dimension = 2
    ∧ (extractSlice c2Volume2d 0).data = [0, 1, 2, 3] := by
  refine ⟨?_, ?_, ?_, ?_, ?_⟩ <;> decide

/-- Claim C2 (corrected): `extractSlice` never fails — it performs no index
and no dimension validation.  For every volume satisfying the buffer-length
invariant, an index at or above size[2] yields a CrossSection whose clamped
pixel buffer is empty, and an in-range index yields the full slab of
size[0]*size[1]*componentsPerPixel elements. -/
theorem extractSlice_no_validation (img : Image3D) (i : Int) (hlen : bufferInvariant img) :
    ((img.size.getD 2 0 : Int) ≤ i → (extractSlice img i).data = [])
    ∧ (0 ≤ i → i < (img.size.getD 2 0 : Int) →
        (extractSlice img i).data.length = slabSize img) := by
  constructor
  · intro hi
    exact extractSlice_data_high img i hlen hi
  · intro h0 hi
    rw [extractSlice_data_in_range img i hlen h0 hi]
    rw [List.length_take, List.length_drop]
    have hbound := slab_bound img i hlen h0 hi
    omega

/-- Witness for C2 at the concrete 2x2x3 volume. -/
theorem extractSlice_no_validation_witness :
    (extractSlice c2Volume 3).data = []
    ∧ (extractSlice c2Volume 0).data.length = slabSize c2Volume :=
  ⟨(extractSlice_no_validation c2Volume 3 (by decide)).1 (by decide),
   (extractSlice_no_validation c2Volume 0 (by decide)).2 (by decide) (by decide)⟩

/-- Claim C3 counterexample: `writeImageAsDicomSeriesWithDcmjs` performs no
dimension validation: handed a volume with dimension 2 it happily processes
size[2] slices instead of failing with ValidationError before any slice is
processed. -/
theorem convert_dcmjs_no_dimension_check_cex :
    c3Volume.imageType.dimension = 2
    ∧ (writeImageAsDicomSeriesWithDcmjs c3Volume c3DcmjsOptions 0 "20260101" "120000").1.length
        = 2 := by
  refine ⟨rfl, ?_⟩
  simp only [writeImageAsDicomSeriesWithDcmjs, generateUID]
  rw [dcmjsLoop_length]
  rfl

/-- Claim C3 (corrected): only `writeImageAsDicomSeries` validates the
dimension — it fails with the validation error before any slice processing
whenever `imageType.dimension` differs from 3 — while
`writeImageAsDicomSeriesWithDcmjs` never validates and always processes
`size[2]` slices whatever the dimension is. -/
theorem convert_dimension_validation (img : Image3D) (opts : WriteOptions) (g : Nat)
    (hdim : img.imageType.dimension ≠ 3)
    (img2 : Image3D) (opts2 : DcmjsOptions) (g2 : Nat) (d t : String) :
    writeImageAsDicomSeries img opts g = Except.error "Input image must be 3D"
    ∧ (writeImageAsDicomSeriesWithDcmjs img2 opts2 g2 d t).1.length = img2.size.getD 2 0 := by
  constructor
  · simp only [writeImageAsDicomSeries]
    rw [if_pos hdim]
  · simp only [writeImageAsDicomSeriesWithDcmjs, generateUID]
    rw [dcmjsLoop_length]
    exact List.length_range _

/-- Witness for C3 at the concrete dimension-2 volume. -/
theorem convert_dimension_validation_witness :
    writeImageAsDicomSeries c3Volume c3WriteOptions 0 = Except.error "Input image must be 3D"
    ∧ (writeImageAsDicomSeriesWithDcmjs c3Volume c3DcmjsOptions 0 "20260101" "120000").1.length
        = c3Volume.size.getD 2 0 :=
  convert_dimension_validation c3Volume c3WriteOptions 0 (by decide)
    c3Volume c3DcmjsOptions 0 "20260101" "120000"

/-- Destructuring `writeImageAsDicomSeriesWithDcmjs`: the study UID takes
the first generated token, the series UID the second, and the loop starts
with the supply advanced twice. -/
theorem writeImageAsDicomSeriesWithDcmjs_eq (img2 : Image3D) (opts2 : DcmjsOptions)
    (g2 : Nat) (d t : String) :
    (writeImageAsDicomSeriesWithDcmjs img2 opts2 g2 d t).1
      = (dcmjsLoop img2 (opts2.fileNamePattern.getD "slice_%04d.dcm")
          (opts2.seriesDescription.getD "Medical Image Series")
          (opts2.seriesNumber.getD 1) (opts2.instanceNumberStart.getD 1)
          (opts2.modality.getD "OT") (DicomValue.uid (g2 + 1)) (DicomValue.uid g2) d t
          (List.range (img2.size.getD 2 0)) (g2 + 1 + 1)).1 := by
  simp only [writeImageAsDicomSeriesWithDcmjs, generateUID]

/-- An 1x1x2 int16 volume for run-level witnesses. -/
def c4Volume : Image3D :=
  { imageType := { dimension := 3, componentType := "int16", pixelType := "Scalar", components := 1 }
    size := [1, 1, 2]
    spacing := [1, 1, 1]
    origin := [0, 0, 0]
    direction := [1, 0, 0, 0, 1, 0, 0, 0, 1]
    metadata := []
    data := [3, 4] }

/-- The concrete run of `writeImageAsDicomSeries` on `c4Volume` with default
options and supply 0 (total, since the dimension check passes). -/
def c4Run : List WrittenFile × Nat :=
  match writeImageAsDicomSeries c4Volume c3WriteOptions 0 with
  | Except.ok p => p
  | Except.error _ => ([], 0)

/-- Writer options supplying the empty string as series UID: defined, so it
survives the destructuring default, but falsy in JS, so
`options.seriesInstanceUID || generateUID()` draws a fresh UID in every
slice iteration. -/
def c4EmptyOptions : WriteOptions :=
  { fileNamePattern := none, seriesDescription := none, seriesNumber := none
    instanceNumberStart := none, modality := none
    seriesInstanceUID := some (DicomValue.str ""), useCompression := none }

/-- The concrete run of `writeImageAsDicomSeries` on `c4Volume` with the
empty-string series UID. -/
def c4EmptyRun : List WrittenFile × Nat :=
  match writeImageAsDicomSeries c4Volume c4EmptyOptions 0 with
  | Except.ok p => p
  | Except.error _ => ([], 0)

/-- Claim C4 counterexample: a run with a caller-supplied empty-string
series UID.  The empty string survives the destructuring default (it is
defined) but is falsy in `options.seriesInstanceUID || generateUID()`, so
every slice draws a fresh series UID: the two dictionaries of the 2-slice
run carry different values at tag 0020|000e, refuting the
identical-SeriesInstanceUID invariant as stated for every run. -/
theorem series_uid_empty_string_cex :
    c4EmptyRun.1.map (fun f => mapGet f.slice.metadata "0020|000e")
      = [some (DicomValue.uid 0), some (DicomValue.uid 2)]
    ∧ some (DicomValue.uid 0) ≠ some (DicomValue.uid 2) := by
  exact ⟨by decide, by decide⟩

/-- Claim C4 (corrected): the SOP instance UID values (0008|0018 /
00080018) are pairwise distinct across every run of either writer, because
a fresh UID is drawn for every slice.  The SeriesInstanceUID (0020|000e /
0020000E) is identical across all dictionaries of a run provided the series
UID option is absent (the generated destructuring default is then reused
for all slices) or truthy; a caller-supplied empty-string series UID is
falsy in JS and makes the first writer draw a fresh series UID per slice.
The dcmjs writer generates its series UID once per run unconditionally. -/
theorem series_uid_shared_sop_uid_distinct
    (img : Image3D) (opts : WriteOptions) (g : Nat)
    (files : List WrittenFile) (gF : Nat)
    (h : writeImageAsDicomSeries img opts g = Except.ok (files, gF))
    (img2 : Image3D) (opts2 : DcmjsOptions) (g2 : Nat) (d t : String) :
    ((opts.seriesInstanceUID = none ∨ truthyUID opts.seriesInstanceUID = true →
        ∀ f1 ∈ files, ∀ f2 ∈ files,
          mapGet f1.slice.metadata "0020|000e" = mapGet f2.slice.metadata "0020|000e")
      ∧ (files.map (fun f => mapGet f.slice.metadata "0008|0018")).Nodup)
    ∧ ((∀ r1 ∈ (writeImageAsDicomSeriesWithDcmjs img2 opts2 g2 d t).1,
          ∀ r2 ∈ (writeImageAsDicomSeriesWithDcmjs img2 opts2 g2 d t).1,
          dsGet r1.dataset "0020000E" = dsGet r2.dataset "0020000E")
      ∧ ((writeImageAsDicomSeriesWithDcmjs img2 opts2 g2 d t).1.map
          (fun r => dsGet r.dataset "00080018")).Nodup) := by
  obtain ⟨opts1, u, g0, hsome, hins, hprovs, hprovn, hf⟩ :=
    writeImageAsDicomSeries_ok img opts g files gF h
  have huidinj : Function.Injective (fun m => some (DicomValue.uid m)) := by
    intro a b hab
    simpa using hab
  have helinj : Function.Injective
      (fun m => some (⟨"UI", [DicomValue.uid m]⟩ : DicomElement)) := by
    intro a b hab
    simpa using hab
  constructor
  · constructor
    · intro hgood f1 h1 f2 h2
      have htr1 : truthyUID opts1.seriesInstanceUID = true := by
        rw [hsome]
        rcases hgood with hnone | htr
        · rw [hprovn hnone]
          rfl
        · cases hopt : opts.seriesInstanceUID with
          | none =>
            rw [hopt] at htr
            exact absurd htr (by decide)
          | some v =>
            rw [hprovs v hopt]
            rw [hopt] at htr
            exact htr
      rw [hf] at h1 h2
      have hrep := seriesLoop_map_series img (opts.fileNamePattern.getD "slice_%04d.dcm")
        (img.size.getD 2 0) opts1 u hsome htr1 (List.range (img.size.getD 2 0)) g0
      rw [← seriesLoop_length img (opts.fileNamePattern.getD "slice_%04d.dcm")
        (img.size.getD 2 0) opts1 (List.range (img.size.getD 2 0)) g0] at hrep
      rw [map_eq_replicate_forall _ _ _ hrep f1 h1,
        map_eq_replicate_forall _ _ _ hrep f2 h2]
    · rw [hf, seriesLoop_map_sop img (opts.fileNamePattern.getD "slice_%04d.dcm")
        (img.size.getD 2 0) opts1]
      exact (List.nodup_range' _ _ _ (by omega)).map huidinj
  · constructor
    · intro r1 h1 r2 h2
      rw [writeImageAsDicomSeriesWithDcmjs_eq] at h1 h2
      have hrep := dcmjsLoop_map_series img2 (opts2.fileNamePattern.getD "slice_%04d.dcm")
        (opts2.seriesDescription.getD "Medical Image Series") (opts2.seriesNumber.getD 1)
        (opts2.instanceNumberStart.getD 1) (opts2.modality.getD "OT")
        (DicomValue.uid (g2 + 1)) (DicomValue.uid g2) d t
        (List.range (img2.size.getD 2 0)) (g2 + 1 + 1)
      rw [← dcmjsLoop_length img2 (opts2.fileNamePattern.getD "slice_%04d.dcm")
        (opts2.seriesDescription.getD "Medical Image Series") (opts2.seriesNumber.getD 1)
        (opts2.instanceNumberStart.getD 1) (opts2.modality.getD "OT")
        (DicomValue.uid (g2 + 1)) (DicomValue.uid g2) d t
        (List.range (img2.size.getD 2 0)) (g2 + 1 + 1)] at hrep
      rw [map_eq_replicate_forall _ _ _ hrep r1 h1,
        map_eq_replicate_forall _ _ _ hrep r2 h2]
    · rw [writeImageAsDicomSeriesWithDcmjs_eq, dcmjsLoop_map_sop]
      exact (List.nodup_range' _ _).map helinj

/-- Witness for C4 on the concrete 2-slice run `c4Run`, whose options carry
no series UID (the generated default is truthy). -/
theorem series_uid_shared_sop_uid_distinct_witness :
    (∀ f1 ∈ c4Run.1, ∀ f2 ∈ c4Run.1,
        mapGet f1.slice.metadata "0020|000e" = mapGet f2.slice.metadata "0020|000e")
    ∧ (c4Run.1.map (fun f => mapGet f.slice.metadata "0008|0018")).Nodup
    ∧ (∀ r1 ∈ (writeImageAsDicomSeriesWithDcmjs c4Volume c3DcmjsOptions 0 "20260101" "120000").1,
        ∀ r2 ∈ (writeImageAsDicomSeriesWithDcmjs c4Volume c3DcmjsOptions 0 "20260101" "120000").1,
        dsGet r1.dataset "0020000E" = dsGet r2.dataset "0020000E")
    ∧ ((writeImageAsDicomSeriesWithDcmjs c4Volume c3DcmjsOptions 0 "20260101" "120000").1.map
        (fun r => dsGet r.dataset "00080018")).Nodup := by
  have T := series_uid_shared_sop_uid_distinct c4Volume c3WriteOptions 0 c4Run.1 c4Run.2 rfl
    c4Volume c3DcmjsOptions 0 "20260101" "120000"
  exact ⟨T.1.1 (Or.inl rfl), T.1.2, T.2.1, T.2.2⟩

/-- A 1x1x1 volume whose component type int64 is absent from the dcmjs
bit-depth lookup table. -/
def c5Volume : Image3D :=
  { imageType := { dimension := 3, componentType := "int64", pixelType := "Scalar", components := 1 }
    size := [1, 1, 1]
    spacing := [1, 1, 1]
    origin := [0, 0, 0]
    direction := [1, 0, 0, 0, 1, 0, 0, 0, 1]
    metadata := []
    data := [2] }

/-- A concrete extracted slice with component type int64. -/
def c5Slice : Slice2D := extractSlice c5Volume 0

/-- A concrete per-slice metadata record. -/
def c5Meta : SliceMetadata :=
  { seriesInstanceUID := DicomValue.uid 0
    sopInstanceUID := DicomValue.uid 1
    instanceNumber := 1
    imagePosition := [0, 0, 0]
    sliceLocation := 0
    seriesDescription := "d"
    seriesNumber := 1
    modality := "MR"
    studyInstanceUID := DicomValue.uid 2
    studyDate := "20260101"
    studyTime := "120000" }

/-- Claim C5 counterexample: int64 is an unrecognized kind (it takes the
16-bit default of the lookup table), yet `isSignedType` classifies it as
signed, so the emitted pixel-representation flag is 1 — against the spec
table row that fixes signed = false for unrecognized/other kinds. -/
theorem pixel_encoding_unrecognized_signed_cex :
    getBitsAllocated "int64" = 16
    ∧ isSignedType "int64" = true
    ∧ dsGet (writeDicomSlice c5Slice c5Meta) "00280103"
        = some ⟨"US", [DicomValue.int 1]⟩ := by
  refine ⟨by decide, by decide, ?_⟩
  rw [dsGet_pixel_representation]
  decide

/-- Claim C5 (corrected): the derived pixel-encoding attributes obey:
bits-allocated is 8/16/32 for the six recognized integer kinds and 16 for
every other kind; bits-stored always equals bits-allocated; the emitted
high-bit is bits-stored minus 1 and the emitted pixel-representation flag is
1 iff the component-type name starts with "int" and not "uint" — so an
unrecognized integer kind such as int64 is flagged signed even though it
falls back to the 16-bit default.  The spot checks uint8 -> (8,8,7,false),
int16 -> (16,16,15,true), uint32 -> (32,32,31,false) all hold. -/
theorem pixel_encoding_attributes (t : String) (s : Slice2D) (md : SliceMetadata) :
    getBitsStored t = getBitsAllocated t
    ∧ (t ≠ "int8" → t ≠ "uint8" → t ≠ "int16" → t ≠ "uint16" → t ≠ "int32" → t ≠ "uint32" →
        getBitsAllocated t = 16)
    ∧ getBitsAllocated "int8" = 8 ∧ getBitsAllocated "uint8" = 8
    ∧ getBitsAllocated "int16" = 16 ∧ getBitsAllocated "uint16" = 16
    ∧ getBitsAllocated "int32" = 32 ∧ getBitsAllocated "uint32" = 32
    ∧ isSignedType "uint8" = false ∧ isSignedType "int16" = true
    ∧ isSignedType "uint32" = false
    ∧ dsGet (writeDicomSlice s md) "00280100"
        = some ⟨"US", [DicomValue.int (getBitsAllocated s.imageType.componentType)]⟩
    ∧ dsGet (writeDicomSlice s md) "00280101"
        = some ⟨"US", [DicomValue.int (getBitsAllocated s.imageType.componentType)]⟩
    ∧ dsGet (writeDicomSlice s md) "00280102"
        = some ⟨"US", [DicomValue.int (getBitsAllocated s.imageType.componentType - 1)]⟩
    ∧ dsGet (writeDicomSlice s md) "00280103"
        = some ⟨"US", [DicomValue.int (if isSignedType s.imageType.componentType then 1 else 0)]⟩ := by
  refine ⟨rfl, ?_, by decide, by decide, by decide, by decide, by decide, by decide,
    by decide, by decide, by decide,
    dsGet_bits_allocated s md, dsGet_bits_stored s md, dsGet_high_bit s md,
    dsGet_pixel_representation s md⟩
  intro h1 h2 h3 h4 h5 h6
  simp [getBitsAllocated, h1, h2, h3, h4, h5, h6]

/-- Witness for C5's default clause at the float64 kind. -/
theorem pixel_encoding_attributes_witness : getBitsAllocated "float64" = 16 :=
  (pixel_encoding_attributes "float64" c5Slice c5Meta).2.1
    (by decide) (by decide) (by decide) (by decide) (by decide) (by decide)

/-- A base dictionary already carrying a series description and a series
number. -/
def c6Base : List (String × DicomValue) :=
  [("0008|103e", DicomValue.str "KEEP"), ("0020|0011", DicomValue.str "5")]

/-- A base dictionary already carrying a modality. -/
def c6BaseMod : List (String × DicomValue) :=
  [("0008|0060", DicomValue.str "MR")]

/-- Slice options supplying all descriptive attributes. -/
def c6Options : SliceOptions :=
  { seriesDescription := some "NEW"
    seriesNumber := some 7
    instanceNumberStart := some 1
    modality := some "CT"
    seriesInstanceUID := some (DicomValue.uid 99) }

/-- A concrete extracted slice used as the slice argument of the dictionary
builder. -/
def testSlice : Slice2D := extractSlice c2Volume 0

/-- Claim C6 counterexample: with a base dictionary already containing a
series description ("KEEP") and series number ("5"), the builder overwrites
both with the caller-supplied values — there is no absence check for these
two attributes (the source checks absence only for modality). -/
theorem descriptive_overwrite_cex :
    mapGet (createDicomMetadataForSlice c6Base 0 1 testSlice c6Options 0).1 "0008|103e"
      = some (DicomValue.str "NEW")
    ∧ mapGet c6Base "0008|103e" = some (DicomValue.str "KEEP")
    ∧ mapGet (createDicomMetadataForSlice c6Base 0 1 testSlice c6Options 0).1 "0020|0011"
      = some (DicomValue.str "7")
    ∧ mapGet c6Base "0020|0011" = some (DicomValue.str "5") := by
  refine ⟨?_, by decide, ?_, by decide⟩
  · rw [cdm_get_desc_truthy c6Base 0 1 testSlice c6Options 0 (by decide)]
    decide
  · rw [cdm_get_num_some c6Base 0 1 testSlice c6Options 0 7 (by decide)]
    decide

/-- Claim C6 (corrected): of the three descriptive attributes only modality
follows the supplied-and-absent policy: it is set only when the caller
supplied a truthy modality and the tag is absent from the base dictionary,
and a base-dictionary modality is never overwritten.  The series
description is set whenever the caller supplied a truthy one and the series
number whenever the caller supplied one at all, in both cases overwriting
any base-dictionary value; when not supplied, the base values survive. -/
theorem descriptive_attribute_policy (base : List (String × DicomValue)) (i : Int)
    (n : Nat) (s2d : Slice2D) (opts : SliceOptions) (g : Nat) :
    (mapHas base "0008|0060" = true →
      mapGet (createDicomMetadataForSlice base i n s2d opts g).1 "0008|0060"
        = mapGet base "0008|0060")
    ∧ (mapHas base "0008|0060" = false → truthyStr opts.modality = true →
      mapGet (createDicomMetadataForSlice base i n s2d opts g).1 "0008|0060"
        = some (DicomValue.str (opts.modality.getD "")))
    ∧ (mapHas base "0008|0060" = false → truthyStr opts.modality = false →
      mapGet (createDicomMetadataForSlice base i n s2d opts g).1 "0008|0060" = none)
    ∧ (truthyStr opts.seriesDescription = true →
      mapGet (createDicomMetadataForSlice base i n s2d opts g).1 "0008|103e"
        = some (DicomValue.str (opts.seriesDescription.getD "")))
    ∧ (truthyStr opts.seriesDescription = false →
      mapGet (createDicomMetadataForSlice base i n s2d opts g).1 "0008|103e"
        = mapGet base "0008|103e")
    ∧ (∀ sn : Int, opts.seriesNumber = some sn →
      mapGet (createDicomMetadataForSlice base i n s2d opts g).1 "0020|0011"
        = some (DicomValue.str (toString sn)))
    ∧ (opts.seriesNumber = none →
      mapGet (createDicomMetadataForSlice base i n s2d opts g).1 "0020|0011"
        = mapGet base "0020|0011") :=
  ⟨fun hhas => cdm_get_modality_has base i n s2d opts g hhas,
   fun hhas htr => cdm_get_modality_absent_truthy base i n s2d opts g hhas htr,
   fun hhas htr => cdm_get_modality_absent_falsy base i n s2d opts g hhas htr,
   fun htr => cdm_get_desc_truthy base i n s2d opts g htr,
   fun htr => cdm_get_desc_falsy base i n s2d opts g htr,
   fun sn hn => cdm_get_num_some base i n s2d opts g sn hn,
   fun hn => cdm_get_num_none base i n s2d opts g hn⟩

/-- Witness for C6: a base-dictionary modality survives the builder. -/
theorem descriptive_attribute_policy_witness :
    mapGet (createDicomMetadataForSlice c6BaseMod 0 1 testSlice c6Options 0).1 "0008|0060"
      = mapGet c6BaseMod "0008|0060" :=
  (descriptive_attribute_policy c6BaseMod 0 1 testSlice c6Options 0).1 (by decide)

/-- A single-slice 3D volume. -/
def c7Volume : Image3D :=
  { imageType := { dimension := 3, componentType := "uint8", pixelType := "Scalar", components := 1 }
    size := [1, 1, 1]
    spacing := [1, 1, 1]
    origin := [0, 0, 0]
    direction := [1, 0, 0, 0, 1, 0, 0, 0, 1]
    metadata := []
    data := [5] }

/-- Writer options with instance-number start 0. -/
def c7Options : WriteOptions :=
  { fileNamePattern := none, seriesDescription := none, seriesNumber := none
    instanceNumberStart := some 0, modality := none
    seriesInstanceUID := some (DicomValue.uid 77), useCompression := none }

/-- Writer options with instance-number start 2. -/
def c7bOptions : WriteOptions :=
  { fileNamePattern := none, seriesDescription := none, seriesNumber := none
    instanceNumberStart := some 2, modality := none
    seriesInstanceUID := some (DicomValue.uid 77), useCompression := none }

/-- dcmjs options with instance-number start 5. -/
def c7DcmjsOptions : DcmjsOptions :=
  { fileNamePattern := none, seriesDescription := none, seriesNumber := none
    instanceNumberStart := some 5, modality := none }

/-- The instance-number tags of a `writeImageAsDicomSeries` run, in slice
order. -/
def seriesRunInstValues (image3D : Image3D) (options : WriteOptions) (g : Nat) :
    List (Option DicomValue) :=
  match writeImageAsDicomSeries image3D options g with
  | Except.ok p => p.1.map (fun f => mapGet f.slice.metadata "0020|0013")
  | Except.error _ => []

/-- Claim C7 counterexample: a run of `writeImageAsDicomSeries` over one
slice with instance-number start s = 0 emits instance number "1" for slice
0, not 0 + 0: the source computes `sliceIndex + (start || 1)` and 0 is
falsy. -/
theorem instance_number_start_zero_cex :
    seriesRunInstValues c7Volume c7Options 0 = [some (DicomValue.str "1")]
    ∧ some (DicomValue.str "1") ≠ some (DicomValue.str "0") := by
  exact ⟨by decide, by decide⟩

/-- Claim C7 (corrected): with a nonzero instance-number start s,
`writeImageAsDicomSeries` emits instance numbers exactly s, s+1, ...,
s+N-1 in ascending slice order, and `writeImageAsDicomSeriesWithDcmjs`
does so for every caller-supplied start (it adds the start without the
`|| 1` falsy-default).  Only the zero (falsy) start deviates in the first
writer, where it is replaced by 1. -/
theorem instance_numbers_sequential
    (img : Image3D) (opts : WriteOptions) (g : Nat) (s : Int)
    (files : List WrittenFile) (gF : Nat)
    (h : writeImageAsDicomSeries img opts g = Except.ok (files, gF))
    (hs : opts.instanceNumberStart = some s) (hnz : s ≠ 0)
    (img2 : Image3D) (opts2 : DcmjsOptions) (g2 : Nat) (s2 : Int) (d t : String)
    (hs2 : opts2.instanceNumberStart = some s2) :
    files.map (fun f => mapGet f.slice.metadata "0020|0013")
      = (List.range files.length).map
          (fun (k : Nat) => some (DicomValue.str (toString ((k : Int) + s))))
    ∧ (writeImageAsDicomSeriesWithDcmjs img2 opts2 g2 d t).1.map
        (fun r => dsGet r.dataset "00200013")
      = (List.range (img2.size.getD 2 0)).map
          (fun (k : Nat) => some ⟨"IS", [DicomValue.int ((k : Int) + s2)]⟩) := by
  constructor
  · obtain ⟨opts1, u, g0, hsome, hins, hprovs, hprovn, hf⟩ := writeImageAsDicomSeries_ok img opts g files gF h
    rw [hf, seriesLoop_map_inst, seriesLoop_length, List.length_range]
    rw [hins, hs]
    simp only [Option.getD_some, jsOrOne, if_neg hnz]
  · rw [writeImageAsDicomSeriesWithDcmjs_eq, dcmjsLoop_map_inst, hs2]
    simp only [Option.getD_some]

/-- The concrete run of `writeImageAsDicomSeries` on `c7Volume` with
instance-number start 2. -/
def c7bRun : List WrittenFile × Nat :=
  match writeImageAsDicomSeries c7Volume c7bOptions 0 with
  | Except.ok p => p
  | Except.error _ => ([], 0)

/-- Witness for C7 at start 2 (first writer) and start 5 (dcmjs writer). -/
theorem instance_numbers_sequential_witness :
    c7bRun.1.map (fun f => mapGet f.slice.metadata "0020|0013")
      = (List.range c7bRun.1.length).map
          (fun (k : Nat) => some (DicomValue.str (toString ((k : Int) + 2))))
    ∧ (writeImageAsDicomSeriesWithDcmjs c4Volume c7DcmjsOptions 0 "20260101" "120000").1.map
        (fun r => dsGet r.dataset "00200013")
      = (List.range (c4Volume.size.getD 2 0)).map
          (fun (k : Nat) => some ⟨"IS", [DicomValue.int ((k : Int) + 5)]⟩) :=
  instance_numbers_sequential c7Volume c7bOptions 0 2 c7bRun.1 c7bRun.2 rfl rfl (by decide)
    c4Volume c7DcmjsOptions 0 5 "20260101" "120000" rfl

/-- Claim C8 (confirmed): for a 3D volume with the buffer-length invariant
and an in-range index, the extracted slice's pixel buffer has length exactly
`size[0] * size[1] * componentsPerPixel` (= `slabSize`), equals the volume
buffer elements starting at offset `index * slabSize`, and the slab read
stays inside the volume buffer.  The extractor is a pure function of the
volume — it copies the slab (`data.slice`) and never writes to the input. -/
theorem extractSlice_slab (img : Image3D) (i : Int)
    (_hdim : img.imageType.dimension = 3) (hlen : bufferInvariant img)
    (h0 : 0 ≤ i) (hi : i < (img.size.getD 2 0 : Int)) :
    (extractSlice img i).data.length = slabSize img
    ∧ (extractSlice img i).data
        = (img.data.drop (i.toNat * slabSize img)).take (slabSize img)
    ∧ i.toNat * slabSize img + slabSize img ≤ img.data.length := by
  have hdata := extractSlice_data_in_range img i hlen h0 hi
  have hbound := slab_bound img i hlen h0 hi
  refine ⟨?_, hdata, hbound⟩
  rw [hdata, List.length_take, List.length_drop]
  omega

/-- Witness for C8 at slice 1 of the concrete 2x2x3 volume. -/
theorem extractSlice_slab_witness :
    (extractSlice c2Volume 1).data.length = slabSize c2Volume
    ∧ (extractSlice c2Volume 1).data
        = (c2Volume.data.drop ((1 : Int).toNat * slabSize c2Volume)).take (slabSize c2Volume)
    ∧ (1 : Int).toNat * slabSize c2Volume + slabSize c2Volume ≤ c2Volume.data.length :=
  extractSlice_slab c2Volume 1 (by decide) (by decide) (by decide) (by decide)

/-- Claim C9 (confirmed): every dataset produced by `writeDicomSlice`
hard-codes SOP Class UID 1.2.840.10008.5.1.4.1.1.4 (MR Image Storage),
Patient Name Anonymous and Patient ID ANON123, for every slice and every
metadata record — in particular independently of the modality option and of
the input volume. -/
theorem writeDicomSlice_fixed_identity (s : Slice2D) (md : SliceMetadata) :
    dsGet (writeDicomSlice s md) "00080016"
      = some ⟨"UI", [DicomValue.str "1.2.840.10008.5.1.4.1.1.4"]⟩
    ∧ dsGet (writeDicomSlice s md) "00100010"
      = some ⟨"PN", [DicomValue.alphabetic "Anonymous"]⟩
    ∧ dsGet (writeDicomSlice s md) "00100020"
      = some ⟨"LO", [DicomValue.str "ANON123"]⟩ :=
  ⟨dsGet_class s md, dsGet_patient_name s md, dsGet_patient_id s md⟩

/-- dcmjs options with instance-number start 0. -/
def c10DcmjsOptions : DcmjsOptions :=
  { fileNamePattern := none, seriesDescription := none, seriesNumber := none
    instanceNumberStart := some 0, modality := none }

/-- Slice options without an instance-number start. -/
def c10SliceOptions : SliceOptions :=
  { seriesDescription := none, seriesNumber := none, instanceNumberStart := none
    modality := none, seriesInstanceUID := some (DicomValue.uid 5) }

/-- Claim C10 (confirmed): `writeImageAsDicomSeries` treats a caller-supplied
instance-number start of 0 (and the undefined one) as 1 — slice i gets
instance number i + 1 — because the source computes `start || 1` and 0 is
falsy in JS; `writeImageAsDicomSeriesWithDcmjs` adds the start directly, so
with start 0 slice i gets instance number i + 0. -/
theorem instance_number_zero_start
    (img : Image3D) (opts : WriteOptions) (g : Nat)
    (files : List WrittenFile) (gF : Nat)
    (h : writeImageAsDicomSeries img opts g = Except.ok (files, gF))
    (hz : opts.instanceNumberStart = some 0)
    (img2 : Image3D) (opts2 : DcmjsOptions) (g2 : Nat) (d t : String)
    (hz2 : opts2.instanceNumberStart = some 0)
    (base : List (String × DicomValue)) (i : Int) (n : Nat) (s2d : Slice2D)
    (opts3 : SliceOptions) (g3 : Nat) (hz3 : opts3.instanceNumberStart = none) :
    files.map (fun f => mapGet f.slice.metadata "0020|0013")
      = (List.range files.length).map
          (fun (k : Nat) => some (DicomValue.str (toString ((k : Int) + 1))))
    ∧ (writeImageAsDicomSeriesWithDcmjs img2 opts2 g2 d t).1.map
        (fun r => dsGet r.dataset "00200013")
      = (List.range (img2.size.getD 2 0)).map
          (fun (k : Nat) => some ⟨"IS", [DicomValue.int ((k : Int) + 0)]⟩)
    ∧ mapGet (createDicomMetadataForSlice base i n s2d opts3 g3).1 "0020|0013"
      = some (DicomValue.str (toString (i + 1))) := by
  refine ⟨?_, ?_, ?_⟩
  · obtain ⟨opts1, u, g0, hsome, hins, hprovs, hprovn, hf⟩ := writeImageAsDicomSeries_ok img opts g files gF h
    rw [hf, seriesLoop_map_inst, seriesLoop_length, List.length_range]
    rw [hins, hz]
    simp only [Option.getD_some, jsOrOne]
    norm_num
  · rw [writeImageAsDicomSeriesWithDcmjs_eq, dcmjsLoop_map_inst, hz2]
    simp only [Option.getD_some]
  · rw [cdm_get_inst, hz3]
    simp only [jsOrOne]

/-- The concrete run of `writeImageAsDicomSeries` on `c7Volume` with
instance-number start 0. -/
def c10Run : List WrittenFile × Nat :=
  match writeImageAsDicomSeries c7Volume c7Options 0 with
  | Except.ok p => p
  | Except.error _ => ([], 0)

/-- Witness for C10 on the concrete start-0 runs. -/
theorem instance_number_zero_start_witness :
    c10Run.1.map (fun f => mapGet f.slice.metadata "0020|0013")
      = (List.range c10Run.1.length).map
          (fun (k : Nat) => some (DicomValue.str (toString ((k : Int) + 1))))
    ∧ (writeImageAsDicomSeriesWithDcmjs c4Volume c10DcmjsOptions 0 "20260101" "120000").1.map
        (fun r => dsGet r.dataset "00200013")
      = (List.range (c4Volume.size.getD 2 0)).map
          (fun (k : Nat) => some ⟨"IS", [DicomValue.int ((k : Int) + 0)]⟩)
    ∧ mapGet (createDicomMetadataForSlice c6Base 0 1 testSlice c10SliceOptions 0).1 "0020|0013"
      = some (DicomValue.str (toString ((0 : Int) + 1))) :=
  instance_number_zero_start c7Volume c7Options 0 c10Run.1 c10Run.2 rfl rfl
    c4Volume c10DcmjsOptions 0 "20260101" "120000" rfl
    c6Base 0 1 testSlice c10SliceOptions 0 rfl

end WriteDicom
